import Mathlib

/-!
Verification of the voice-assistant request pipeline (Flask backend +
realtime agent) against its natural-language specification.

The development shallowly embeds the orchestration core of the repository:

* `flask_backend/app.py` — the HTTP route handlers `speech_to_text`
  (`POST /api/stt`), `generate_response` (`POST /api/llm`),
  `process_conversation` (`POST /api/conversation`), and the metrics
  export pair `save_metrics_to_excel` / `export_metrics`.
* `flask_backend/livekit_agent.py` — the realtime agent's stage functions
  `_stt_fn`, `_llm_fn` and `_tts_fn` (embedded here as `stt_fn`, `llm_fn`,
  `tts_fn`; Lean does not allow a leading underscore in these names).

External vendor services (Deepgram, Groq, ElevenLabs) are opaque
collaborators: each call site takes the call's outcome as an explicit
`Except` argument (an "oracle").  Wall-clock samples taken by
`time.time()` are explicit rational arguments.  Python `round(x, 2)`
(banker's rounding to two decimals) is embedded exactly as `pyRound2`
over `ℚ`.  Byte strings are embedded as `List Nat`.
-/

/-- Python `round` to an integer: round half to even (banker's rounding).
`round(s, 2)` in the source is `bankersRound (100 * s) / 100`. -/
def bankersRound (s : ℚ) : ℤ :=
  if s - (⌊s⌋ : ℚ) < 1/2 then ⌊s⌋
  else if 1/2 < s - (⌊s⌋ : ℚ) then ⌊s⌋ + 1
  else if ⌊s⌋ % 2 = 0 then ⌊s⌋ else ⌊s⌋ + 1

/-- Python `round(q, 2)`: round to two decimal places, ties to even. -/
def pyRound2 (q : ℚ) : ℚ := ((bankersRound (100 * q) : ℤ) : ℚ) / 100

/-- Python `str.strip()`: drop whitespace from both ends.  Embedded
structurally over the character list so that it evaluates in the kernel
(the built-in `String.trim` is defined by well-founded recursion and does
not reduce). -/
def pyStrip (s : String) : String :=
  String.mk (((s.data.dropWhile Char.isWhitespace).reverse.dropWhile Char.isWhitespace).reverse)

/-- The slicing loop `for i in range(0, len(l), c): yield l[i:i+c]` from
`_tts_fn`'s stream generators: successive chunks of `c` elements.  The
`c = 0` guard is vacuous at every call site (the source fixes
`chunk_size = 1024`); it only serves termination. -/
def chunkList (c : Nat) (l : List Nat) : List (List Nat) :=
  if h : c = 0 ∨ l = [] then [] else l.take c :: chunkList c (l.drop c)
termination_by l.length
decreasing_by
  push_neg at h
  rw [List.length_drop]
  have hc : 0 < c := Nat.pos_of_ne_zero h.1
  have hl : 0 < l.length := List.length_pos.mpr h.2
  omega

/-- The chunk sequence emitted by the inner generator `text_stream` of
`_tts_fn` in `livekit_agent.py`: the synthesized `audio_binary` sliced
into chunks of the fixed `chunk_size = 1024`. -/
def text_stream (audio_binary : List Nat) : List (List Nat) :=
  chunkList 1024 audio_binary

/-- One record of the in-memory `metrics_log` of `app.py`.  The stage
records (`stt`, `llm`, `tts`) carry `total_latency`, `service_latency`
and `processing_overhead` (all in milliseconds, rounded to two decimal
places); the per-turn `conversation` record has no service latency or
overhead field.  Stage-specific extras (`timestamp`, `tokens`,
`text_length`, `ttft`, `ttfb`, `eou_delay`) are not referenced by any
claim and are not modelled. -/
structure MetricRecord where
  type : String
  total_latency : ℚ
  service_latency : Option ℚ
  processing_overhead : Option ℚ
  deriving DecidableEq

/-- The metric entry built at the end of each stage in `app.py`
(`speech_to_text`, `generate_response`, `text_to_speech`, and the three
stage blocks of `process_conversation`):
`total_latency = round((stage_end - stage_start) * 1000, 2)`,
`service_latency = round((svc_end - svc_start) * 1000, 2)`,
`processing_overhead = round(((stage_end - stage_start) - (svc_end - svc_start)) * 1000, 2)`.
The time arguments are the `time.time()` samples, in seconds. -/
def mkStageMetric (ty : String) (stage_start stage_end svc_start svc_end : ℚ) : MetricRecord :=
  ⟨ty, pyRound2 (1000 * (stage_end - stage_start)),
    some (pyRound2 (1000 * (svc_end - svc_start))),
    some (pyRound2 (1000 * ((stage_end - stage_start) - (svc_end - svc_start))))⟩

/-- The aggregate `full_metrics` record of `process_conversation`
(`"type": "conversation"`); it has no `service_latency` or
`processing_overhead` field. -/
def mkConversationMetric (start_time end_time : ℚ) : MetricRecord :=
  ⟨"conversation", pyRound2 (1000 * (end_time - start_time)), none, none⟩

/-- A Flask route's JSON reply: either the handler's success payload or
`jsonify({"error": message}), status`. -/
inductive ApiResult (α : Type) where
  | ok (value : α)
  | error (status : Nat) (message : String)
  deriving DecidableEq

/-- `header, base64_data = audio_data_uri.split(',')` succeeds exactly
when the URI contains a single comma; otherwise the `ValueError` is
caught by the handler's `except` block.  (The decoded bytes flow only
into the external transcription call, which the embedding treats as an
oracle, so their value is not modelled.) -/
def dataUriWellFormed (uri : String) : Bool :=
  uri.data.count ',' = 1

/-- The four `time.time()` samples of a single-stage handler
(`speech_to_text` / `generate_response` / `text_to_speech`):
handler entry, service-call entry, service-call exit, handler exit. -/
structure StageTimes where
  start_time : ℚ
  svc_start : ℚ
  svc_end : ℚ
  end_time : ℚ
  deriving DecidableEq

/-- All-zero time samples, for concrete instantiations. -/
def zeroStageTimes : StageTimes := ⟨0, 0, 0, 0⟩

/-- Success payload of `POST /api/stt`. -/
structure SttOk where
  transcription : String
  metrics : MetricRecord
  deriving DecidableEq

/-- The `speech_to_text` handler of `app.py` (`POST /api/stt`).
`deepgramAvailable` is the module-level `DEEPGRAM_AVAILABLE` flag (false
when the SDK import failed or the client could not be initialised, e.g.
for a missing credential).  `request` is the `audioDataUri` field of the
JSON body, when present.  `sttOracle` is the outcome of the Deepgram
call (transcript, or the raised exception's text).  Returns the JSON
reply paired with the records this call appends to `metrics_log`. -/
def speech_to_text (deepgramAvailable : Bool) (request : Option String)
    (sttOracle : Except String String) (T : StageTimes) :
    ApiResult SttOk × List MetricRecord :=
  if deepgramAvailable = false then
    (.error 500 "Deepgram SDK not available", [])
  else
    match request with
    | none => (.error 400 "No audio data provided", [])
    | some uri =>
      if dataUriWellFormed uri = false then
        (.error 500 "not enough values to unpack (expected 2, got 1)", [])
      else
        match sttOracle with
        | .error e => (.error 500 e, [])
        | .ok transcript =>
          let metric_entry :=
            mkStageMetric "stt" T.start_time T.end_time T.svc_start T.svc_end
          (.ok ⟨transcript, metric_entry⟩, [metric_entry])

/-- Success payload of `POST /api/llm`. -/
structure LlmOk where
  response : String
  metrics : MetricRecord
  deriving DecidableEq

/-- The `generate_response` handler of `app.py` (`POST /api/llm`).
`request` is the `transcription` field of the JSON body, when present
(note: present-but-empty passes the `'transcription' not in data`
check).  `groqOracle` is the outcome of the Groq chat-completion call.
The middle component of the result records whether the external
generation call was reached. -/
def generate_response (request : Option String) (groqOracle : Except String String)
    (T : StageTimes) : ApiResult LlmOk × Bool × List MetricRecord :=
  match request with
  | none => (.error 400 "No transcription provided", false, [])
  | some _transcription =>
    match groqOracle with
    | .error e => (.error 500 e, true, [])
    | .ok response_text =>
      let metric_entry :=
        mkStageMetric "llm" T.start_time T.end_time T.svc_start T.svc_end
      (.ok ⟨response_text, metric_entry⟩, true, [metric_entry])

/-- The `time.time()` samples of `process_conversation`, in source
order. -/
structure ConvTimes where
  start_time : ℚ
  stt_start : ℚ
  deepgram_start : ℚ
  deepgram_end : ℚ
  stt_end : ℚ
  llm_start : ℚ
  groq_start : ℚ
  groq_end : ℚ
  llm_end : ℚ
  tts_start : ℚ
  elevenlabs_start : ℚ
  elevenlabs_end : ℚ
  tts_end : ℚ
  end_time : ℚ
  deriving DecidableEq

/-- All-zero time samples, for concrete instantiations. -/
def zeroConvTimes : ConvTimes := ⟨0, 0, 0, 0, 0, 0, 0, 0, 0, 0, 0, 0, 0, 0⟩

/-- Success payload of `POST /api/conversation`.  `audio` holds the
synthesized bytes (the handler transmits them base64-encoded; the
encoding is an injective external codec and is not modelled). -/
structure ConvOk where
  transcription : String
  response : String
  audio : List Nat
  metrics : MetricRecord
  deriving DecidableEq

/-- The `process_conversation` handler of `app.py`
(`POST /api/conversation`): STT, then LLM, then TTS, appending one
metric record as each stage completes and one aggregate `conversation`
record at the end.  The whole body sits in a single `try`; the first
raised exception `e` yields `jsonify({"error": str(e)}), 500`, with the
records appended so far left in `metrics_log`. -/
def process_conversation (deepgramAvailable : Bool) (request : Option String)
    (sttOracle llmOracle : Except String String)
    (ttsOracle : Except String (List Nat)) (T : ConvTimes) :
    ApiResult ConvOk × List MetricRecord :=
  if deepgramAvailable = false then
    (.error 500 "Deepgram SDK not available", [])
  else
    match request with
    | none => (.error 400 "No audio data provided", [])
    | some uri =>
      if dataUriWellFormed uri = false then
        (.error 500 "not enough values to unpack (expected 2, got 1)", [])
      else
        match sttOracle with
        | .error e => (.error 500 e, [])
        | .ok transcription =>
          let stt_metrics :=
            mkStageMetric "stt" T.stt_start T.stt_end T.deepgram_start T.deepgram_end
          match llmOracle with
          | .error e => (.error 500 e, [stt_metrics])
          | .ok response_text =>
            let llm_metrics :=
              mkStageMetric "llm" T.llm_start T.llm_end T.groq_start T.groq_end
            match ttsOracle with
            | .error e => (.error 500 e, [stt_metrics, llm_metrics])
            | .ok audio_binary =>
              let tts_metrics :=
                mkStageMetric "tts" T.tts_start T.tts_end T.elevenlabs_start T.elevenlabs_end
              let full_metrics := mkConversationMetric T.start_time T.end_time
              (.ok ⟨transcription, response_text, audio_binary, full_metrics⟩,
                [stt_metrics, llm_metrics, tts_metrics, full_metrics])

/-- `save_metrics_to_excel` of `app.py`: when `metrics_log` is nonempty,
write every record to a fresh spreadsheet file and return its name;
otherwise return `None` and write nothing.  The embedding returns the
rows the written file contains. -/
def save_metrics_to_excel (metrics_log : List MetricRecord) :
    Option (List MetricRecord) :=
  if metrics_log.isEmpty then none else some metrics_log

/-- Reply of `GET /metrics/export`: `{"status": "success", "filename"}`
(with the named file holding the given rows) or
`{"status": "error", "message"}`. -/
inductive ExportResult where
  | success (fileRecords : List MetricRecord)
  | error (message : String)
  deriving DecidableEq

/-- The `export_metrics` handler of `app.py` (`GET /metrics/export`). -/
def export_metrics (metrics_log : List MetricRecord) : ExportResult :=
  match save_metrics_to_excel metrics_log with
  | some records => .success records
  | none => .error "No metrics to export"

/-- Exceptions of the realtime agent's helper calls
(`agent_helpers.py`): `ConnectionError` (client not initialised /
connection fault) versus any other `Exception`. -/
inductive AgentErr where
  | connectionError (msg : String)
  | other (msg : String)
  deriving DecidableEq

/-- `_stt_fn` of `livekit_agent.py`.  `deepgramKey` is the
`DEEPGRAM_API_KEY` environment value; `oracle` is the outcome of
`transcribe_audio_data` on the buffered utterance.  Every exception path
of the source is caught inside the stage, which the embedding reflects
by returning `String` rather than `Except`. -/
def stt_fn (deepgramKey : Option String) (oracle : Except AgentErr String) : String :=
  if deepgramKey.isNone then ""
  else
    match oracle with
    | .ok transcription => transcription
    | .error (.connectionError _) => "Sorry, I couldn\x27t connect to the transcription service."
    | .error (.other _) => "Sorry, I had trouble understanding that."

/-- `_llm_fn` of `livekit_agent.py`.  `groqKey` is the `GROQ_API_KEY`
environment value; `oracle` is the outcome of `get_llm_response`.  The
second component records whether the external generation call was
reached.  As in `_stt_fn`, every exception path is caught inside the
stage. -/
def llm_fn (groqKey : Option String) (oracle : Except AgentErr String)
    (transcription : String) : String × Bool :=
  if groqKey.isNone then
    ("I\x27m sorry, I can\x27t process your request right now.", false)
  else
    if transcription = "" ∨ pyStrip transcription = "Sorry, I had trouble understanding that." then
      ("I didn\x27t catch that, could you please repeat?", false)
    else
      match oracle with
      | .ok response_text => (response_text, true)
      | .error (.connectionError _) => ("Sorry, I couldn\x27t connect to the language model.", true)
      | .error (.other _) => ("I\x27m having trouble thinking of a response.", true)

/-- The `if not text or text.strip() == ... or text.strip() == ...`
guard at the top of `_tts_fn`. -/
def isErrorSentinel (text : String) : Bool :=
  text == "" || pyStrip text == "I didn\x27t catch that, could you please repeat?"
    || pyStrip text == "I\x27m having trouble thinking of a response."

/-- The main `try/except` of `_tts_fn`, entered after the key check and
the sentinel-text block: synthesize `text` and stream it in 1024-byte
chunks; on `ConnectionError` stream a best-effort apology synthesis
(`error_stream`), on any other exception stream a different apology
(`fallback_stream`); if the apology synthesis itself fails, yield
nothing.  `synth` gives each `synthesize_speech(msg)` call's outcome. -/
def tts_fn_synthesize (synth : String → Except AgentErr (List Nat))
    (text : String) : List (List Nat) :=
  match synth text with
  | .ok audio_binary => chunkList 1024 audio_binary
  | .error (.connectionError _) =>
    match synth "I\x27m sorry, I couldn\x27t generate the audio response." with
    | .ok error_audio_binary => chunkList 1024 error_audio_binary
    | .error _ => []
  | .error (.other _) =>
    match synth "There was an error with the speech synthesis." with
    | .ok fallback_audio_binary => chunkList 1024 fallback_audio_binary
    | .error _ => []

/-- `_tts_fn` of `livekit_agent.py`.  `elevenKey` is the
`ELEVENLABS_API_KEY` environment value.  With no key the source
executes `raise ConnectionError("TTS service not configured.")`, which
the embedding reflects as `Except.error`.  With a key: if the incoming
text is empty or one of the two LLM error sentinels, the source first
attempts a probe synthesis of "I\x27m sorry, there was an issue." — on
failure it returns the empty stream (`empty_stream`), on success it
discards the probe audio (`pass`) and falls through to the main
synthesis path.  The returned chunk list is the sequence of bytes the
stage's async generator yields. -/
def tts_fn (elevenKey : Option String) (synth : String → Except AgentErr (List Nat))
    (text : String) : Except AgentErr (List (List Nat)) :=
  if elevenKey.isNone then
    .error (.connectionError "TTS service not configured.")
  else
    if isErrorSentinel text then
      match synth "I\x27m sorry, there was an issue." with
      | .error _ => .ok []
      | .ok _ => .ok (tts_fn_synthesize synth text)
    else
      .ok (tts_fn_synthesize synth text)

/-- A constant synthesis oracle, for concrete instantiations. -/
def constSynthOk : String → Except AgentErr (List Nat) := fun _ => .ok []

/-- `contains n h`: the character sequence `n` occurs contiguously in
`h`.  Used to state that an error message mentions a stage name. -/
def mentionsStage (response_message stage : String) : Prop :=
  stage.data <:+: response_message.data

/-! ## Helper lemmas: banker's rounding -/

theorem bankersRound_eq_low (s : ℚ) (n : ℤ) (h1 : (n : ℚ) ≤ s) (h2 : s < n + 1)
    (hlt : s - (n : ℚ) < 1/2) : bankersRound s = n := by
  have hf : ⌊s⌋ = n := Int.floor_eq_iff.mpr ⟨h1, h2⟩
  unfold bankersRound
  rw [hf, if_pos hlt]

theorem bankersRound_eq_high (s : ℚ) (n : ℤ) (h1 : (n : ℚ) ≤ s) (h2 : s < n + 1)
    (hgt : 1/2 < s - (n : ℚ)) : bankersRound s = n + 1 := by
  have hf : ⌊s⌋ = n := Int.floor_eq_iff.mpr ⟨h1, h2⟩
  unfold bankersRound
  rw [hf, if_neg (by linarith), if_pos hgt]

theorem bankersRound_abs_le (s : ℚ) : |((bankersRound s : ℤ) : ℚ) - s| ≤ 1/2 := by
  have h1 : ((⌊s⌋ : ℤ) : ℚ) ≤ s := Int.floor_le s
  have h2 : s < (⌊s⌋ : ℚ) + 1 := Int.lt_floor_add_one s
  unfold bankersRound
  split_ifs with ha hb hc <;> rw [abs_le] <;> constructor <;> push_cast <;> linarith

theorem pyRound2_abs_le (q : ℚ) : |pyRound2 q - q| ≤ 1/200 := by
  have h := bankersRound_abs_le (100 * q)
  rw [abs_le] at h ⊢
  unfold pyRound2
  constructor <;> [linarith [h.1]; linarith [h.2]]

theorem pyRound2_sub_abs_le (x y : ℚ) :
    |pyRound2 (x - y) - (pyRound2 x - pyRound2 y)| ≤ 1/100 := by
  have hA := pyRound2_abs_le (x - y)
  have hB := pyRound2_abs_le x
  have hC := pyRound2_abs_le y
  rw [abs_le] at hA hB hC
  have e1 : pyRound2 (x - y) = ((bankersRound (100 * (x - y)) : ℤ) : ℚ) / 100 := rfl
  have e2 : pyRound2 x = ((bankersRound (100 * x) : ℤ) : ℚ) / 100 := rfl
  have e3 : pyRound2 y = ((bankersRound (100 * y) : ℤ) : ℚ) / 100 := rfl
  set b1 := bankersRound (100 * (x - y))
  set b2 := bankersRound (100 * x)
  set b3 := bankersRound (100 * y)
  have hd : pyRound2 (x - y) - (pyRound2 x - pyRound2 y)
      = ((b1 - b2 + b3 : ℤ) : ℚ) / 100 := by
    rw [e1, e2, e3]
    push_cast
    ring
  rw [e1] at hA
  rw [e2] at hB
  rw [e3] at hC
  have hup : ((b1 - b2 + b3 : ℤ) : ℚ) ≤ 3/2 := by
    push_cast
    linarith [hA.2, hB.1, hC.2]
  have hlo : (-(3/2) : ℚ) ≤ ((b1 - b2 + b3 : ℤ) : ℚ) := by
    push_cast
    linarith [hA.1, hB.2, hC.1]
  have hk1 : b1 - b2 + b3 ≤ 1 := by
    have hq : ((b1 - b2 + b3 : ℤ) : ℚ) < 2 := by linarith
    have hz : b1 - b2 + b3 < 2 := by exact_mod_cast hq
    omega
  have hk2 : -1 ≤ b1 - b2 + b3 := by
    have hq : (-2 : ℚ) < ((b1 - b2 + b3 : ℤ) : ℚ) := by linarith
    have hz : (-2 : ℤ) < b1 - b2 + b3 := by exact_mod_cast hq
    omega
  have c1 : ((b1 - b2 + b3 : ℤ) : ℚ) ≤ 1 := by exact_mod_cast hk1
  have c2 : (-1 : ℚ) ≤ ((b1 - b2 + b3 : ℤ) : ℚ) := by exact_mod_cast hk2
  rw [hd, abs_le]
  constructor <;> linarith

/-! ## Helper lemmas: chunking -/

theorem chunkList_flatten (c : Nat) (hc : c ≠ 0) (l : List Nat) :
    (chunkList c l).flatten = l := by
  induction l using chunkList.induct c with
  | case1 l h =>
    rcases h with h | h
    · exact absurd h hc
    · rw [chunkList]
      simp [h]
  | case2 l h ih =>
    rw [chunkList, dif_neg h, List.flatten_cons, ih, List.take_append_drop]

theorem chunkList_length (c : Nat) (hc : c ≠ 0) (l : List Nat) :
    (chunkList c l).length = (l.length + c - 1) / c := by
  induction l using chunkList.induct c with
  | case1 l h =>
    rcases h with h | h
    · exact absurd h hc
    · subst h
      rw [chunkList, dif_pos (Or.inr rfl)]
      simp only [List.length_nil, Nat.zero_add]
      rw [Nat.div_eq_of_lt (by omega)]
  | case2 l h ih =>
    push_neg at h
    have hc' : 0 < c := Nat.pos_of_ne_zero h.1
    have hl : 0 < l.length := List.length_pos.mpr h.2
    rw [chunkList, dif_neg (by push_neg; exact h), List.length_cons, ih, List.length_drop]
    rcases le_or_lt l.length c with hle | hlt
    · have e1 : l.length - c + c - 1 = c - 1 := by omega
      rw [e1, Nat.div_eq_of_lt (by omega)]
      have e3 : l.length + c - 1 = (l.length - 1) + 1 * c := by omega
      rw [e3, Nat.add_mul_div_right _ _ hc', Nat.div_eq_of_lt (by omega)]
    · have e3 : l.length + c - 1 = (l.length - c + c - 1) + 1 * c := by omega
      rw [e3, Nat.add_mul_div_right _ _ hc']

/-- Case analysis of the main `try/except` of `_tts_fn`: the emitted
chunk list is either empty or the 1024-chunking of a successful
synthesis (of the requested text or of one of the two apology
messages). -/
theorem tts_fn_synthesize_cases (synth : String → Except AgentErr (List Nat)) (text : String) :
    tts_fn_synthesize synth text = [] ∨
    ∃ a, tts_fn_synthesize synth text = chunkList 1024 a ∧
      (synth text = .ok a
        ∨ synth "I\x27m sorry, I couldn\x27t generate the audio response." = .ok a
        ∨ synth "There was an error with the speech synthesis." = .ok a) := by
  rcases h : synth text with e | a
  · rcases e with m | m
    · rcases h2 : synth "I\x27m sorry, I couldn\x27t generate the audio response." with e2 | a2
      · exact Or.inl (by simp [tts_fn_synthesize, h, h2])
      · refine Or.inr ⟨a2, ?_, Or.inr (Or.inl rfl)⟩
        simp [tts_fn_synthesize, h, h2]
    · rcases h2 : synth "There was an error with the speech synthesis." with e2 | a2
      · exact Or.inl (by simp [tts_fn_synthesize, h, h2])
      · refine Or.inr ⟨a2, ?_, Or.inr (Or.inr rfl)⟩
        simp [tts_fn_synthesize, h, h2]
  · refine Or.inr ⟨a, ?_, Or.inl rfl⟩
    simp [tts_fn_synthesize, h]

/-! ## Concrete rounding evaluations for the C2 counterexample -/

theorem pyRound2_ce_total : pyRound2 (1000 * ((503/500000 : ℚ) - 0)) = 101/100 := by
  have he : (1000 : ℚ) * ((503/500000 : ℚ) - 0) = 503/500 := by norm_num
  rw [he]
  unfold pyRound2
  have hb : bankersRound (100 * (503/500 : ℚ)) = 100 + 1 := by
    apply bankersRound_eq_high <;> norm_num
  rw [hb]
  norm_num

theorem pyRound2_ce_service : pyRound2 (1000 * ((1/250000 : ℚ) - 0)) = 0 := by
  have he : (1000 : ℚ) * ((1/250000 : ℚ) - 0) = 1/250 := by norm_num
  rw [he]
  unfold pyRound2
  have hb : bankersRound (100 * (1/250 : ℚ)) = 0 := by
    apply bankersRound_eq_low <;> norm_num
  rw [hb]
  norm_num

theorem pyRound2_ce_overhead :
    pyRound2 (1000 * (((503/500000 : ℚ) - 0) - ((1/250000 : ℚ) - 0))) = 1 := by
  have he : (1000 : ℚ) * (((503/500000 : ℚ) - 0) - ((1/250000 : ℚ) - 0)) = 501/500 := by
    norm_num
  rw [he]
  unfold pyRound2
  have hb : bankersRound (100 * (501/500 : ℚ)) = 100 := by
    apply bankersRound_eq_low <;> norm_num
  rw [hb]
  norm_num

/-! ## Claim C1 -/

/-- Claim C1: for every byte string `audio_binary` of length `L` and the
fixed chunk size `C = 1024`, the chunk sequence emitted by the realtime
TTS stream (`text_stream` in `_tts_fn`) concatenates back to exactly the
original `L` bytes and contains exactly `⌈L/C⌉` chunks (in particular,
zero chunks when `L = 0`, since `(0 + 1023) / 1024 = 0`). -/
theorem c1_text_stream_concat_and_count (audio_binary : List Nat) :
    (text_stream audio_binary).flatten = audio_binary ∧
    (text_stream audio_binary).length = (audio_binary.length + 1024 - 1) / 1024 :=
  ⟨chunkList_flatten 1024 (by omega) audio_binary,
   chunkList_length 1024 (by omega) audio_binary⟩

/-! ## Claim C2 -/

/-- Claim C2, counterexample: at the concrete `time.time()` samples
`stage_start = 0`, `stage_end = 0.001006 s`, `svc_start = 0`,
`svc_end = 0.000004 s`, the stored fields are
`total_latency = round(1.006, 2) = 1.01`,
`service_latency = round(0.004, 2) = 0.0`, but
`processing_overhead = round(1.002, 2) = 1.0 ≠ 1.01 - 0.0`: the stored
overhead is the rounding of the difference, not the difference of the
roundings, so exact equality fails. -/
theorem c2_overhead_counterexample :
    (mkStageMetric "stt" 0 (503/500000) 0 (1/250000)).service_latency = some 0 ∧
    (mkStageMetric "stt" 0 (503/500000) 0 (1/250000)).processing_overhead
      ≠ some ((mkStageMetric "stt" 0 (503/500000) 0 (1/250000)).total_latency - 0) := by
  constructor
  · show some (pyRound2 (1000 * ((1/250000 : ℚ) - 0))) = some 0
    rw [pyRound2_ce_service]
  · show some (pyRound2 (1000 * (((503/500000 : ℚ) - 0) - ((1/250000 : ℚ) - 0))))
      ≠ some (pyRound2 (1000 * ((503/500000 : ℚ) - 0)) - 0)
    rw [pyRound2_ce_overhead, pyRound2_ce_total]
    norm_num

/-- Claim C2, amended: for every MetricRecord appended by a stage
(`stt`, `llm`, `tts`), the stored `processing_overhead` is the
independently rounded raw difference, and therefore agrees with
`total_latency - service_latency` only up to `0.01` ms (one unit in the
last rounded place), not exactly. -/
theorem c2_overhead_rounding_bound (ty : String)
    (stage_start stage_end svc_start svc_end : ℚ) :
    ∃ s p,
      (mkStageMetric ty stage_start stage_end svc_start svc_end).service_latency = some s ∧
      (mkStageMetric ty stage_start stage_end svc_start svc_end).processing_overhead = some p ∧
      |p - ((mkStageMetric ty stage_start stage_end svc_start svc_end).total_latency - s)|
        ≤ 1/100 := by
  refine ⟨_, _, rfl, rfl, ?_⟩
  show |pyRound2 (1000 * ((stage_end - stage_start) - (svc_end - svc_start)))
      - (pyRound2 (1000 * (stage_end - stage_start))
        - pyRound2 (1000 * (svc_end - svc_start)))| ≤ 1/100
  have he : (1000 : ℚ) * ((stage_end - stage_start) - (svc_end - svc_start))
      = 1000 * (stage_end - stage_start) - 1000 * (svc_end - svc_start) := by ring
  rw [he]
  exact pyRound2_sub_abs_le _ _

/-! ## Claim C3 -/

/-- Claim C3, counterexample: a well-formed data URI, successful
transcription and reply generation, but a failing synthesis call.  The
handler returns `jsonify({"error": str(e)}), 500` — an error response
with no audio field — because `process_conversation` has no synthesis
fallback at all (the apology fallback exists only in the realtime
agent's `_tts_fn`). -/
theorem c3_conversation_tts_failure_counterexample :
    (process_conversation true (some "data:audio/wav;base64,AAAA") (.ok "hello")
        (.ok "hi there") (.error "synthesis failed") zeroConvTimes).1
      = ApiResult.error 500 "synthesis failed" := rfl

/-- Claim C3, amended: for every request to `POST /api/conversation`
with a well-formed audio data URI where transcription and reply
generation succeed but the speech-synthesis call fails, the handler
returns an error response (HTTP 500 with the exception text) and no
audio field; no fallback apology synthesis is attempted by this
route. -/
theorem c3_conversation_tts_failure_errors (T : ConvTimes)
    (uri transcript reply e : String) (h : dataUriWellFormed uri = true) :
    (process_conversation true (some uri) (.ok transcript) (.ok reply) (.error e) T).1
      = ApiResult.error 500 e := by
  simp [process_conversation, h]

/-- Witness for the amended C3 at a concrete well-formed data URI. -/
theorem c3_conversation_tts_failure_errors_witness :
    dataUriWellFormed "data:audio/wav;base64,AAAA" = true ∧
    (process_conversation true (some "data:audio/wav;base64,AAAA") (.ok "hi")
        (.ok "hello there") (.error "boom") zeroConvTimes).1 = ApiResult.error 500 "boom" :=
  ⟨by decide,
   c3_conversation_tts_failure_errors zeroConvTimes "data:audio/wav;base64,AAAA"
     "hi" "hello there" "boom" (by decide)⟩

/-! ## Claim C4 -/

/-- Claim C4, counterexample: the HTTP Reply Generator
(`generate_response`, `POST /api/llm`) called with a present-but-empty
`transcription` does reach the external generation call (second
component `true`) and returns the model's text, not a canned
clarification reply — the empty-transcript short-circuit exists only in
the realtime agent's `_llm_fn`. -/
theorem c4_empty_transcript_counterexample :
    (generate_response (some "") (Except.ok "Hello! How can I help?") zeroStageTimes).2.1
      = true ∧
    (generate_response (some "") (Except.ok "Hello! How can I help?") zeroStageTimes).1
      = ApiResult.ok ⟨"Hello! How can I help?", mkStageMetric "llm" 0 0 0 0⟩ :=
  ⟨rfl, rfl⟩

/-- Claim C4, amended: the realtime agent's Reply Generator (`_llm_fn`)
short-circuits on the empty transcript to the canned clarification reply
without invoking the external generation call; the HTTP `/api/llm`
handler (`generate_response`) does not short-circuit and invokes the
external call even for an empty transcript. -/
theorem c4_empty_transcript_short_circuit :
    (∀ (k : String) (oracle : Except AgentErr String),
      llm_fn (some k) oracle "" = ("I didn\x27t catch that, could you please repeat?", false)) ∧
    (∀ (oracle : Except String String) (T : StageTimes),
      (generate_response (some "") oracle T).2.1 = true) := by
  constructor
  · intro k oracle
    simp [llm_fn]
  · intro oracle T
    cases oracle <;> rfl

/-! ## Claim C5 -/

/-- Claim C5: when the transcription service is unavailable (the
`DEEPGRAM_AVAILABLE` flag is false because the client was never
initialised), every request to `POST /api/stt` returns HTTP 500 with an
error field, and no MetricRecord is appended to the metrics log. -/
theorem c5_stt_unavailable_500_no_metrics (request : Option String)
    (sttOracle : Except String String) (T : StageTimes) :
    speech_to_text false request sttOracle T
      = (ApiResult.error 500 "Deepgram SDK not available", []) := rfl

/-! ## Claim C6 -/

/-- Claim C6, counterexample: with a well-formed data URI, successful
transcription, and a generation failure whose exception text is
`"boom"`, the response is `{"error": "boom"}` with HTTP 500 — the
message is only the exception text and does not contain the failing
stage's name (`"llm"`, nor any other stage name). -/
theorem c6_error_response_counterexample :
    (process_conversation true (some "data:audio/wav;base64,AAAA") (.ok "hello")
        (.error "boom") (.ok []) zeroConvTimes).1 = ApiResult.error 500 "boom" ∧
    ¬ mentionsStage "boom" "llm" ∧ ¬ mentionsStage "boom" "stt" ∧
    ¬ mentionsStage "boom" "tts" := by
  refine ⟨rfl, ?_, ?_, ?_⟩ <;> (unfold mentionsStage; decide)

/-- Claim C6, amended: on failure at any stage of
`POST /api/conversation`, the orchestrator aborts the remaining stages
and returns `{"error": message}` with HTTP 500, where the message is only
the raised exception's text (the failing stage's name is not included),
and the response carries no partial results (the error constructor has no
transcript, reply or audio field). -/
theorem c6_abort_error_no_partial (T : ConvTimes) (uri transcript reply e : String)
    (llmOracle : Except String String) (ttsOracle : Except String (List Nat))
    (h : dataUriWellFormed uri = true) :
    (process_conversation true (some uri) (.error e) llmOracle ttsOracle T).1
        = ApiResult.error 500 e ∧
    (process_conversation true (some uri) (.ok transcript) (.error e) ttsOracle T).1
        = ApiResult.error 500 e ∧
    (process_conversation true (some uri) (.ok transcript) (.ok reply) (.error e) T).1
        = ApiResult.error 500 e := by
  refine ⟨?_, ?_, ?_⟩ <;> simp [process_conversation, h]

/-- Witness for the amended C6 at a concrete well-formed data URI. -/
theorem c6_abort_error_no_partial_witness :
    dataUriWellFormed "data:audio/wav;base64,AAAA" = true ∧
    ((process_conversation true (some "data:audio/wav;base64,AAAA") (.error "dg down")
        (.ok "r") (.ok []) zeroConvTimes).1 = ApiResult.error 500 "dg down" ∧
     (process_conversation true (some "data:audio/wav;base64,AAAA") (.ok "t")
        (.error "dg down") (.ok []) zeroConvTimes).1 = ApiResult.error 500 "dg down" ∧
     (process_conversation true (some "data:audio/wav;base64,AAAA") (.ok "t")
        (.ok "r") (.error "dg down") zeroConvTimes).1 = ApiResult.error 500 "dg down") :=
  ⟨by decide,
   c6_abort_error_no_partial zeroConvTimes "data:audio/wav;base64,AAAA" "t" "r" "dg down"
     (.ok "r") (.ok []) (by decide)⟩

/-! ## Claim C7 -/

/-- Claim C7: in the realtime agent, every failure at the transcription
or generation stage is absorbed inside the stage, which returns a fixed
substitute text instead of raising (the embedded stage functions return
plain `String`, reflecting that every exception path of the source is
caught): `ConnectionError` (service unavailable / connection fault) and
any other exception each map to their canned phrase, and a missing
credential maps to the stage's fixed substitute (`""` for `_stt_fn`,
which the next stage's empty-check turns into the clarification reply;
a canned apology for `_llm_fn`), so the turn's pipeline continues to the
next stage rather than aborting. -/
theorem c7_realtime_canned_fallbacks (k m t : String) (h1 : t ≠ "")
    (h2 : pyStrip t ≠ "Sorry, I had trouble understanding that.") :
    stt_fn (some k) (.error (.connectionError m))
        = "Sorry, I couldn\x27t connect to the transcription service." ∧
    stt_fn (some k) (.error (.other m)) = "Sorry, I had trouble understanding that." ∧
    stt_fn none (.error (.other m)) = "" ∧
    (llm_fn (some k) (.error (.connectionError m)) t).1
        = "Sorry, I couldn\x27t connect to the language model." ∧
    (llm_fn (some k) (.error (.other m)) t).1
        = "I\x27m having trouble thinking of a response." ∧
    (llm_fn none (.error (.other m)) t).1
        = "I\x27m sorry, I can\x27t process your request right now." := by
  refine ⟨rfl, rfl, rfl, ?_, ?_, rfl⟩ <;> simp [llm_fn, h1, h2]

/-- Witness for C7 at a concrete non-sentinel transcript. -/
theorem c7_realtime_canned_fallbacks_witness :
    ("what are your opening hours" ≠ "" ∧
      pyStrip "what are your opening hours" ≠ "Sorry, I had trouble understanding that.") ∧
    (llm_fn (some "groq-key") (.error (.connectionError "down")) "what are your opening hours").1
        = "Sorry, I couldn\x27t connect to the language model." :=
  ⟨⟨by decide, by decide⟩,
   (c7_realtime_canned_fallbacks "groq-key" "down" "what are your opening hours"
     (by decide) (by decide)).2.2.2.1⟩

/-! ## Claim C8 -/

/-- Claim C8, counterexample: with the ElevenLabs credential missing,
`_tts_fn` executes `raise ConnectionError("TTS service not configured.")`
— a failure that does propagate an exception out of the synthesis stage,
for any synthesis behavior and input text. -/
theorem c8_tts_missing_key_counterexample :
    tts_fn none constSynthOk "hello"
      = Except.error (AgentErr.connectionError "TTS service not configured.") := rfl

/-- Claim C8, amended: with the ElevenLabs credential present, no
synthesis failure propagates an exception out of `_tts_fn`: for every
input text and every behavior of the synthesis calls, the stage returns
a stream that yields either successfully synthesized audio (of the
requested text or of an apology message, in 1024-byte chunks) or zero
chunks when the fallback synthesis also fails.  (With the credential
missing, the stage raises `ConnectionError` — see the
counterexample.) -/
theorem c8_tts_no_exception_with_key (k : String)
    (synth : String → Except AgentErr (List Nat)) (text : String) :
    ∃ emitted, tts_fn (some k) synth text = Except.ok emitted ∧
      (emitted = [] ∨ ∃ audio_binary, emitted = chunkList 1024 audio_binary ∧
        (synth text = .ok audio_binary
          ∨ synth "I\x27m sorry, I couldn\x27t generate the audio response." = .ok audio_binary
          ∨ synth "There was an error with the speech synthesis." = .ok audio_binary)) := by
  have hmain := tts_fn_synthesize_cases synth text
  unfold tts_fn
  split
  · next hk => simp at hk
  · split
    · rcases hp : synth "I\x27m sorry, there was an issue." with e | a0
      · exact ⟨[], rfl, Or.inl rfl⟩
      · rcases hmain with hm | ⟨a, ha, hsrc⟩
        · exact ⟨tts_fn_synthesize synth text, rfl, Or.inl hm⟩
        · exact ⟨tts_fn_synthesize synth text, rfl, Or.inr ⟨a, ha, hsrc⟩⟩
    · rcases hmain with hm | ⟨a, ha, hsrc⟩
      · exact ⟨tts_fn_synthesize synth text, rfl, Or.inl hm⟩
      · exact ⟨tts_fn_synthesize synth text, rfl, Or.inr ⟨a, ha, hsrc⟩⟩

/-! ## Claim C9 -/

/-- Claim C9, counterexample: with the metrics log empty (N = 0),
`GET /metrics/export` produces no file at all — `save_metrics_to_excel`
returns `None` and the handler replies with an error status — rather
than a file containing exactly zero records. -/
theorem c9_export_empty_counterexample :
    export_metrics [] = ExportResult.error "No metrics to export" ∧
    export_metrics [] ≠ ExportResult.success [] := by
  constructor
  · rfl
  · intro hcontra
    exact ExportResult.noConfusion hcontra

/-- Claim C9, amended: for every nonempty metrics log (N ≥ 1 records at
call time), `GET /metrics/export` produces a file containing exactly
those N records (a snapshot of the in-memory log at call time; records
appended later are not included).  When the log is empty, no file is
produced and an error-status reply is returned instead. -/
theorem c9_export_snapshot (metrics_log : List MetricRecord) (h : metrics_log ≠ []) :
    export_metrics metrics_log = ExportResult.success metrics_log := by
  unfold export_metrics save_metrics_to_excel
  rw [if_neg (by simpa using h)]

/-- Witness for the amended C9 at a concrete one-record log. -/
theorem c9_export_snapshot_witness :
    [mkConversationMetric 0 0] ≠ ([] : List MetricRecord) ∧
    export_metrics [mkConversationMetric 0 0]
      = ExportResult.success [mkConversationMetric 0 0] :=
  ⟨by simp, c9_export_snapshot [mkConversationMetric 0 0] (by simp)⟩

/-! ## Claim C10 -/

/-- Claim C10: every successful request to `POST /api/conversation`
appends exactly four records to the metrics log, in the order
`stt`, `llm`, `tts`, `conversation`; a failed request appends only the
records of the stages that completed before the failure (none for a
transcription failure, `stt` for a generation failure, `stt, llm` for a
synthesis failure). -/
theorem c10_metric_append_order (T : ConvTimes) (uri transcript reply e : String)
    (audio_binary : List Nat) (h : dataUriWellFormed uri = true) :
    (process_conversation true (some uri) (.ok transcript) (.ok reply)
        (.ok audio_binary) T).2.map MetricRecord.type
      = ["stt", "llm", "tts", "conversation"] ∧
    (process_conversation true (some uri) (.error e) (.ok reply)
        (.ok audio_binary) T).2.map MetricRecord.type = [] ∧
    (process_conversation true (some uri) (.ok transcript) (.error e)
        (.ok audio_binary) T).2.map MetricRecord.type = ["stt"] ∧
    (process_conversation true (some uri) (.ok transcript) (.ok reply)
        (.error e) T).2.map MetricRecord.type = ["stt", "llm"] := by
  refine ⟨?_, ?_, ?_, ?_⟩ <;>
    simp [process_conversation, h, mkStageMetric, mkConversationMetric]

/-- Witness for C10 at a concrete well-formed data URI. -/
theorem c10_metric_append_order_witness :
    dataUriWellFormed "data:audio/wav;base64,AAAA" = true ∧
    ((process_conversation true (some "data:audio/wav;base64,AAAA") (.ok "hi")
        (.ok "hello") (.ok [1, 2, 3]) zeroConvTimes).2.map MetricRecord.type
      = ["stt", "llm", "tts", "conversation"] ∧
     (process_conversation true (some "data:audio/wav;base64,AAAA") (.error "x")
        (.ok "hello") (.ok [1, 2, 3]) zeroConvTimes).2.map MetricRecord.type = [] ∧
     (process_conversation true (some "data:audio/wav;base64,AAAA") (.ok "hi")
        (.error "x") (.ok [1, 2, 3]) zeroConvTimes).2.map MetricRecord.type = ["stt"] ∧
     (process_conversation true (some "data:audio/wav;base64,AAAA") (.ok "hi")
        (.ok "hello") (.error "x") zeroConvTimes).2.map MetricRecord.type = ["stt", "llm"]) :=
  ⟨by decide,
   c10_metric_append_order zeroConvTimes "data:audio/wav;base64,AAAA" "hi" "hello" "x"
     [1, 2, 3] (by decide)⟩
